import Mathlib

/-
Verification of the MySTL library: iterator category tags, iterator_traits
(including the raw-pointer specializations), the tag-dispatched distance and
advance algorithms, and the move/forward/swap/pair utilities.

Embedding notes.
* Iterators over a sequence are modelled as integer positions: `++` is `+ 1`,
  `--` is `- 1`, `it1 - it2` is integer subtraction and `+=` is integer
  addition, exactly the semantics of the raw-pointer iterators the library's
  traits specializations describe.  `Distance` values are unbounded integers
  (the C++ `ptrdiff_t` with signed overflow being undefined behaviour).
* The `while` loops of the input-iterator dispatch paths do not terminate for
  every input, so they are embedded with an explicit fuel parameter returning
  `Option`: `none` means the loop has not reached its exit condition within
  `fuel` iterations.  A result that is `some r` for a suitable fuel is the
  value the C++ loop returns; a result that is `none` for every fuel is a
  non-terminating execution.
* Overload resolution of the tag-dispatch helpers is made explicit: the tag
  hierarchy (input <- forward <- bidirectional <- random_access, with
  output_iterator_tag outside of it) determines which `_dispatch` overload a
  category binds to; for `output_iterator_tag` no overload is viable and the
  call is ill-formed, modelled as `none`.
* C++ types, as far as the type-level claims need them, are an inductive
  datatype with base types, `const`, pointers and both kinds of references.
-/

namespace MySTL

/-- The five iterator category tags of the library. -/
inductive IteratorCategory where
  | input
  | output
  | forward
  | bidirectional
  | randomAccess
  deriving DecidableEq, Repr

/-- A fragment of the C++ type language: named base types, `ptrdiff_t`,
`const T`, `T*`, `T&` and `T&&`. -/
inductive CppType where
  | base (id : Nat)
  | ptrdiffT
  | konst (t : CppType)
  | ptr (t : CppType)
  | lref (t : CppType)
  | rref (t : CppType)
  deriving DecidableEq, Repr

/-- `remove_reference` from type_traits.h: the primary template maps `T` to
itself, the partial specializations map `T&` and `T&&` to `T`. -/
def remove_reference : CppType → CppType
  | .lref t => t
  | .rref t => t
  | t => t

/-- `is_lvalue_reference` from type_traits.h: the primary template derives
from `false_type`, the partial specialization for `T&` from `true_type`. -/
def is_lvalue_reference : CppType → Bool
  | .lref _ => true
  | _ => false

/-- Whether a type is a reference type of either kind (used only to state
the claims; the source expresses this through overload selection). -/
def is_reference : CppType → Bool
  | .lref _ => true
  | .rref _ => true
  | _ => false

/-- The C++ reference-collapsing rule applied when forming `T&&`:
`&` wins over `&&`, so `T& &&` is `T&` and `T&& &&` is `T&&`. -/
def collapse_rvalue_ref : CppType → CppType
  | .lref t => .lref t
  | .rref t => .rref t
  | t => .rref t

/-- The return type of `mystl::forward<T>`, namely `T&&` after reference
collapsing (both overloads return `static_cast<T&&>(arg)`). -/
def forward_result_type (T : CppType) : CppType := collapse_rvalue_ref T

/-- The value computed by `mystl::forward<T>(arg)`: the cast returns a
reference to the argument object itself, so as a value map it is the
identity. -/
def forward_value {α : Type} (a : α) : α := a

/-- The rvalue overload of `mystl::forward<T>`: its body is guarded by
`static_assert(!is_lvalue_reference<T>::value, ...)`, so instantiating it
with an lvalue-reference `T` is ill-formed (`none`); otherwise it returns
`static_cast<T&&>(arg)` whose type is `T&&` after collapsing. -/
def forward_rvalue_overload (T : CppType) : Option CppType :=
  if is_lvalue_reference T then none
  else some (collapse_rvalue_ref T)

/-- The associated types that `iterator_traits` exposes. -/
structure IteratorTraits where
  iterator_category : IteratorCategory
  value_type : CppType
  difference_type : CppType
  pointer : CppType
  reference : CppType
  deriving DecidableEq, Repr

/-- The `iterator_traits<T*>` partial specialization. -/
def iterator_traits_ptrSpec (T : CppType) : IteratorTraits :=
  { iterator_category := .randomAccess
    value_type := T
    difference_type := .ptrdiffT
    pointer := .ptr T
    reference := .lref T }

/-- The `iterator_traits<const T*>` partial specialization: same category and
`value_type` as `T*`, but const-qualified pointer and reference. -/
def iterator_traits_constPtrSpec (T : CppType) : IteratorTraits :=
  { iterator_category := .randomAccess
    value_type := T
    difference_type := .ptrdiffT
    pointer := .ptr (.konst T)
    reference := .lref (.konst T) }

/-- Partial-ordering of the two pointer specializations of
`iterator_traits`: a pointer to a const-qualified pointee selects the
`const T*` specialization, any other pointer selects the `T*`
specialization, and a non-pointer type selects neither (`none`). -/
def iterator_traits_pointer : CppType → Option IteratorTraits
  | .ptr (.konst T) => some (iterator_traits_constPtrSpec T)
  | .ptr T => some (iterator_traits_ptrSpec T)
  | _ => none

/-- Which `distance_dispatch` overload a category binds to.  There are
overloads for `input_iterator_tag` and `random_access_iterator_tag`;
forward and bidirectional tags convert to `input_iterator_tag` through the
tag hierarchy, while `output_iterator_tag` is outside the hierarchy, so
for it no overload is viable. -/
inductive DistancePath where
  | viaInput
  | viaRandomAccess
  deriving DecidableEq, Repr

/-- Overload resolution for `distance_dispatch` on the five tags. -/
def distance_overload : IteratorCategory → Option DistancePath
  | .input => some .viaInput
  | .forward => some .viaInput
  | .bidirectional => some .viaInput
  | .randomAccess => some .viaRandomAccess
  | .output => none

/-- Which `advance_dispatch` overload a category binds to: overloads exist
for input, bidirectional and random-access tags; `forward_iterator_tag`
converts to `input_iterator_tag`; `output_iterator_tag` matches none. -/
inductive AdvancePath where
  | viaInput
  | viaBidirectional
  | viaRandomAccess
  deriving DecidableEq, Repr

/-- Overload resolution for `advance_dispatch` on the five tags. -/
def advance_overload : IteratorCategory → Option AdvancePath
  | .input => some .viaInput
  | .forward => some .viaInput
  | .bidirectional => some .viaBidirectional
  | .randomAccess => some .viaRandomAccess
  | .output => none

/-- The loop of `distance_dispatch(first, last, input_iterator_tag)`:
`while (first != last) { ++first; ++n; } return n;`, with `n` the
accumulator (initially 0) and an explicit iteration budget `fuel`. -/
def distance_input_loop : Nat → Int → Int → Int → Option Int
  | 0, first, last, n => if first = last then some n else none
  | f + 1, first, last, n =>
      if first = last then some n
      else distance_input_loop f (first + 1) last (n + 1)

/-- `distance_dispatch` for `input_iterator_tag`: runs the counting loop
starting from `n = 0`. -/
def distance_dispatch_input (fuel : Nat) (first last : Int) : Option Int :=
  distance_input_loop fuel first last 0

/-- `distance_dispatch` for `random_access_iterator_tag`:
`return last - first;`. -/
def distance_dispatch_random_access (first last : Int) : Int :=
  last - first

/-- `mystl::distance`: looks up the category tag via `iterator_traits` and
tag-dispatches to the matching `distance_dispatch` overload. -/
def distance (cat : IteratorCategory) (fuel : Nat) (first last : Int) :
    Option Int :=
  match distance_overload cat with
  | none => none
  | some .viaInput => distance_dispatch_input fuel first last
  | some .viaRandomAccess => some (distance_dispatch_random_access first last)

/-- The loop of `advance_dispatch(i, n, input_iterator_tag)`:
`while (n--) ++i;` — the guard tests `n != 0` and then decrements, so the
loop exits only when `n` reaches exactly 0; for a negative `n` it never
does.  `fuel` is the explicit iteration budget. -/
def advance_dispatch_input : Nat → Int → Int → Option Int
  | 0, i, n => if n = 0 then some i else none
  | f + 1, i, n =>
      if n = 0 then some i
      else advance_dispatch_input f (i + 1) (n - 1)

/-- The forward loop `while (n--) ++i;` of the bidirectional overload for a
non-negative count, indexed by the number of remaining iterations. -/
def advance_loop_fwd (i : Int) : Nat → Int
  | 0 => i
  | k + 1 => advance_loop_fwd (i + 1) k

/-- The backward loop `while (n++) --i;` of the bidirectional overload for a
negative count, indexed by the number of remaining iterations. -/
def advance_loop_bwd (i : Int) : Nat → Int
  | 0 => i
  | k + 1 => advance_loop_bwd (i - 1) k

/-- `advance_dispatch` for `bidirectional_iterator_tag`:
`if (n >= 0) while (n--) ++i; else while (n++) --i;`.  The forward loop
executes `n` iterations and the backward loop `-n` iterations, both finite,
so no fuel is needed. -/
def advance_dispatch_bidirectional (i n : Int) : Int :=
  if 0 ≤ n then advance_loop_fwd i n.toNat
  else advance_loop_bwd i (-n).toNat

/-- `advance_dispatch` for `random_access_iterator_tag`: `i += n;`. -/
def advance_dispatch_random_access (i n : Int) : Int :=
  i + n

/-- `mystl::advance`: looks up the category tag via `iterator_traits` and
tag-dispatches to the matching `advance_dispatch` overload. -/
def advance (cat : IteratorCategory) (fuel : Nat) (i n : Int) : Option Int :=
  match advance_overload cat with
  | none => none
  | some .viaInput => advance_dispatch_input fuel i n
  | some .viaBidirectional => some (advance_dispatch_bidirectional i n)
  | some .viaRandomAccess => some (advance_dispatch_random_access i n)

/-- `mystl::swap(a, b)`: `tmp = move(a); a = move(b); b = move(tmp);` —
`move` only changes the value category of its argument, so as a value
transformation each assignment copies the source value.  The pair returned
is the final state `(a, b)`. -/
def swap {α : Type} (a b : α) : α × α :=
  let tmp := a
  let a1 := b
  let b1 := tmp
  (a1, b1)

/-- The fixed-size-array overload of `mystl::swap`:
`for (size_t i = 0; i < N; ++i) swap(a[i], b[i]);` — applied element by
element over arrays of the same length `N`, here represented as lists
traversed in index order. -/
def swap_arrays {α : Type} : List α → List α → List α × List α
  | a :: as, b :: bs =>
    let p := swap a b
    let q := swap_arrays as bs
    (p.1 :: q.1, p.2 :: q.2)
  | as, bs => (as, bs)

/-- `mystl::pair`: two public members `first` and `second`. -/
structure pair (α β : Type) where
  first : α
  second : β
  deriving DecidableEq, Repr

/-- `operator==` on pair: `a.first == b.first && a.second == b.second`. -/
def pair_eq {α β : Type} [DecidableEq α] [DecidableEq β]
    (a b : pair α β) : Bool :=
  decide (a.first = b.first) && decide (a.second = b.second)

/-- `operator!=` on pair: `!(a == b)`. -/
def pair_ne {α β : Type} [DecidableEq α] [DecidableEq β]
    (a b : pair α β) : Bool :=
  !(pair_eq a b)

/-- `operator<` on pair:
`a.first < b.first || (a.first == b.first && a.second < b.second)`. -/
def pair_lt {α β : Type} [LinearOrder α] [LinearOrder β]
    (a b : pair α β) : Bool :=
  decide (a.first < b.first) ||
    (decide (a.first = b.first) && decide (a.second < b.second))

/-- `operator>` on pair: `b < a`. -/
def pair_gt {α β : Type} [LinearOrder α] [LinearOrder β]
    (a b : pair α β) : Bool :=
  pair_lt b a

/-- `operator<=` on pair: `!(b < a)`. -/
def pair_le {α β : Type} [LinearOrder α] [LinearOrder β]
    (a b : pair α β) : Bool :=
  !(pair_lt b a)

/-- `operator>=` on pair: `!(a < b)`. -/
def pair_ge {α β : Type} [LinearOrder α] [LinearOrder β]
    (a b : pair α β) : Bool :=
  !(pair_lt a b)

/-! Helper lemmas about the loops. -/

/-- The forward loop advances by exactly its iteration count. -/
theorem advance_loop_fwd_eq (k : Nat) :
    ∀ i : Int, advance_loop_fwd i k = i + k := by
  induction k with
  | zero => intro i; simp [advance_loop_fwd]
  | succ m ih =>
      intro i
      rw [advance_loop_fwd, ih]
      push_cast
      ring

/-- The backward loop retreats by exactly its iteration count. -/
theorem advance_loop_bwd_eq (k : Nat) :
    ∀ i : Int, advance_loop_bwd i k = i - k := by
  induction k with
  | zero => intro i; simp [advance_loop_bwd]
  | succ m ih =>
      intro i
      rw [advance_loop_bwd, ih]
      push_cast
      ring

/-- With enough fuel, the input-path advance loop on a non-negative count
`n` returns `i + n`. -/
theorem advance_dispatch_input_eq (n : Nat) :
    ∀ (fuel : Nat) (i : Int), n ≤ fuel →
      advance_dispatch_input fuel i n = some (i + n) := by
  induction n with
  | zero => intro fuel i _; cases fuel <;> simp [advance_dispatch_input]
  | succ m ih =>
      intro fuel i h
      match fuel with
      | f + 1 =>
        rw [advance_dispatch_input]
        rw [if_neg (by omega)]
        have h2 : ((m + 1 : Nat) : Int) - 1 = (m : Nat) := by push_cast; ring
        rw [h2, ih f (i + 1) (by omega)]
        congr 1
        push_cast
        ring

/-- For a negative count the input-path advance loop never reaches its exit
condition, whatever the fuel: the C++ loop `while (n--) ++i;` does not
terminate. -/
theorem advance_dispatch_input_neg :
    ∀ (fuel : Nat) (i n : Int), n < 0 →
      advance_dispatch_input fuel i n = none := by
  intro fuel
  induction fuel with
  | zero =>
      intro i n hn
      rw [advance_dispatch_input, if_neg (by omega)]
  | succ f ih =>
      intro i n hn
      rw [advance_dispatch_input, if_neg (by omega)]
      exact ih (i + 1) (n - 1) (by omega)

/-- With enough fuel, the counting loop of the input-path distance adds the
number of steps from `first` to `first + k` to its accumulator. -/
theorem distance_input_loop_eq (k : Nat) :
    ∀ (fuel : Nat) (first m : Int), k ≤ fuel →
      distance_input_loop fuel first (first + k) m = some (m + k) := by
  induction k with
  | zero => intro fuel first m _; cases fuel <;> simp [distance_input_loop]
  | succ j ih =>
      intro fuel first m h
      match fuel with
      | f + 1 =>
        rw [distance_input_loop]
        rw [if_neg (by omega)]
        have h2 : first + ((j + 1 : Nat) : Int) = (first + 1) + (j : Nat) := by
          push_cast; ring
        rw [h2, ih f (first + 1) (m + 1) (by omega)]
        congr 1
        push_cast
        ring

/-- With enough fuel, the input-path distance of a range of `k` increments
is `k`. -/
theorem distance_dispatch_input_eq (k : Nat) (fuel : Nat) (first : Int)
    (h : k ≤ fuel) :
    distance_dispatch_input fuel first (first + k) = some k := by
  rw [distance_dispatch_input, distance_input_loop_eq k fuel first 0 h]
  simp

/-- The element-wise array swap of equal-length lists exchanges the lists. -/
theorem swap_arrays_eq {α : Type} :
    ∀ (as bs : List α), as.length = bs.length →
      swap_arrays as bs = (bs, as) := by
  intro as
  induction as with
  | nil =>
      intro bs h
      cases bs with
      | nil => rfl
      | cons b bs => simp at h
  | cons a as ih =>
      intro bs h
      cases bs with
      | nil => simp at h
      | cons b bs =>
          rw [swap_arrays, ih bs (by simpa using h)]
          simp [swap]

/-- For every category in the input hierarchy, distance over a range of `k`
increments is `k` (with enough fuel on the counting path). -/
theorem distance_eq_of_reachable (cat : IteratorCategory)
    (hcat : cat ≠ IteratorCategory.output) (first : Int) (n fuel : Nat)
    (hfuel : n ≤ fuel) :
    distance cat fuel first (first + n) = some n := by
  cases cat with
  | output => exact absurd rfl hcat
  | input =>
      simpa [distance, distance_overload] using
        distance_dispatch_input_eq n fuel first hfuel
  | forward =>
      simpa [distance, distance_overload] using
        distance_dispatch_input_eq n fuel first hfuel
  | bidirectional =>
      simpa [distance, distance_overload] using
        distance_dispatch_input_eq n fuel first hfuel
  | randomAccess =>
      simp [distance, distance_overload, distance_dispatch_random_access]

/-- For every category in the input hierarchy, advance by a non-negative
count `n` lands on `i + n` (with enough fuel on the counting path). -/
theorem advance_eq_of_nonneg (cat : IteratorCategory)
    (hcat : cat ≠ IteratorCategory.output) (i : Int) (n fuel : Nat)
    (hfuel : n ≤ fuel) :
    advance cat fuel i n = some (i + n) := by
  cases cat with
  | output => exact absurd rfl hcat
  | input =>
      simpa [advance, advance_overload] using
        advance_dispatch_input_eq n fuel i hfuel
  | forward =>
      simpa [advance, advance_overload] using
        advance_dispatch_input_eq n fuel i hfuel
  | bidirectional =>
      have h0 : (0 : Int) ≤ (n : Nat) := Int.natCast_nonneg n
      show some (advance_dispatch_bidirectional i n) = some (i + n)
      rw [advance_dispatch_bidirectional, if_pos h0, Int.toNat_natCast,
        advance_loop_fwd_eq]
  | randomAccess =>
      simp [advance, advance_overload, advance_dispatch_random_access]

/-! The claims. -/

/-- Claim C1: for every iterator range (first, last) such that last is
reachable from first by exactly n increments (n >= 0), distance returns n
for every category distance accepts (every tag of the input hierarchy), and
on the input-iterator dispatch path the one-at-a-time counting loop itself
returns n. -/
theorem distance_counts_reachable (cat : IteratorCategory)
    (hcat : cat ≠ IteratorCategory.output) (first : Int) (n fuel : Nat)
    (hfuel : n ≤ fuel) :
    distance cat fuel first (first + n) = some n ∧
      distance_dispatch_input fuel first (first + n) = some n :=
  ⟨distance_eq_of_reachable cat hcat first n fuel hfuel,
    distance_dispatch_input_eq n fuel first hfuel⟩

/-- Witness for C1: a range of 3 increments starting at position 10, under
the input-iterator category. -/
theorem distance_counts_reachable_witness :
    distance IteratorCategory.input 5 10 (10 + ((3 : Nat) : Int)) =
        some ((3 : Nat) : Int) ∧
      distance_dispatch_input 5 10 (10 + ((3 : Nat) : Int)) =
        some ((3 : Nat) : Int) :=
  distance_counts_reachable IteratorCategory.input (by decide) 10 3 5
    (by decide)

/-- Claim C2: the two strategies selected by tag dispatch for distance
agree: on a reachable range the O(n) counting implementation returns
exactly the value `last - first` of the O(1) random-access
implementation. -/
theorem distance_strategies_agree (first : Int) (n fuel : Nat)
    (hfuel : n ≤ fuel) :
    distance_dispatch_input fuel first (first + n) =
      some (distance_dispatch_random_access first (first + n)) := by
  rw [distance_dispatch_input_eq n fuel first hfuel]
  simp [distance_dispatch_random_access]

/-- Witness for C2: both strategies give 2 on the range from 4 to 6. -/
theorem distance_strategies_agree_witness :
    distance_dispatch_input 7 4 (4 + ((2 : Nat) : Int)) =
      some (distance_dispatch_random_access 4 (4 + ((2 : Nat) : Int))) :=
  distance_strategies_agree 4 2 7 (by decide)

/-- Claim C3: advance and distance agree as a round trip: for every
non-negative n and every category the library's algorithms accept,
advance(i, n) lands on a position j with distance(i, j) = n. -/
theorem advance_distance_round_trip (cat : IteratorCategory)
    (hcat : cat ≠ IteratorCategory.output) (i : Int) (n fuel : Nat)
    (hfuel : n ≤ fuel) :
    advance cat fuel i n = some (i + n) ∧
      distance cat fuel i (i + n) = some n :=
  ⟨advance_eq_of_nonneg cat hcat i n fuel hfuel,
    distance_eq_of_reachable cat hcat i n fuel hfuel⟩

/-- Witness for C3: advancing by 4 from position 2 under the bidirectional
category, then measuring the distance. -/
theorem advance_distance_round_trip_witness :
    advance IteratorCategory.bidirectional 6 2 ((4 : Nat) : Int) =
        some (2 + ((4 : Nat) : Int)) ∧
      distance IteratorCategory.bidirectional 6 2 (2 + ((4 : Nat) : Int)) =
        some ((4 : Nat) : Int) :=
  advance_distance_round_trip IteratorCategory.bidirectional (by decide) 2 4 6
    (by decide)

/-- Claim C4: for bidirectional and random-access iterators and negative n,
advance moves backward exactly |n| positions, and advancing by -n
afterwards restores the original position. -/
theorem advance_negative_inverse (cat : IteratorCategory)
    (hcat : cat = IteratorCategory.bidirectional ∨
      cat = IteratorCategory.randomAccess)
    (i n : Int) (hn : n < 0) (fuel : Nat) :
    advance cat fuel i n = some (i + n) ∧
      advance cat fuel (i + n) (-n) = some i := by
  have hbwd : advance_dispatch_bidirectional i n = i + n := by
    rw [advance_dispatch_bidirectional, if_neg (by omega),
      advance_loop_bwd_eq, Int.toNat_of_nonneg (by omega)]
    ring
  have hfwd : advance_dispatch_bidirectional (i + n) (-n) = i := by
    rw [advance_dispatch_bidirectional, if_pos (by omega),
      advance_loop_fwd_eq, Int.toNat_of_nonneg (by omega)]
    ring
  rcases hcat with h | h <;> subst h
  · exact ⟨by simpa [advance, advance_overload] using hbwd,
      by simpa [advance, advance_overload] using hfwd⟩
  · constructor <;>
      simp [advance, advance_overload, advance_dispatch_random_access]

/-- Witness for C4: advancing by -3 from position 7 under the
random-access category and back. -/
theorem advance_negative_inverse_witness :
    advance IteratorCategory.randomAccess 0 7 (-3) = some (7 + (-3)) ∧
      advance IteratorCategory.randomAccess 0 (7 + (-3)) (-(-3)) = some 7 :=
  advance_negative_inverse IteratorCategory.randomAccess (Or.inr rfl) 7 (-3)
    (by decide) 0

/-- Claim C5, counterexample: advance does NOT terminate for every integer
n on the input-iterator dispatch path.  For n = -1 the loop
`while (n--) ++i;` never reaches its exit condition, so no iteration budget
ever yields a result. -/
theorem advance_input_negative_diverges :
    ¬ ∃ (fuel : Nat) (r : Int),
        advance IteratorCategory.input fuel 0 (-1) = some r := by
  rintro ⟨fuel, r, h⟩
  have h2 : advance IteratorCategory.input fuel 0 (-1) =
      advance_dispatch_input fuel 0 (-1) := rfl
  rw [h2, advance_dispatch_input_neg fuel 0 (-1) (by decide)] at h
  exact Option.noConfusion h

/-- Claim C5 (amended): distance and advance terminate in all supported
cases — advance terminates for every n on the bidirectional and
random-access paths, and for every n >= 0 on the input-iterator path
(where the code documents that only non-negative n is supported), while for
n < 0 the input-path loop never terminates; distance terminates on every
reachable range. -/
theorem advance_distance_termination :
    (∀ (cat : IteratorCategory) (i : Int) (n : Nat),
        cat ≠ IteratorCategory.output →
        ∃ r, advance cat n i n = some r) ∧
    (∀ (i n : Int) (fuel : Nat),
        ∃ r, advance IteratorCategory.bidirectional fuel i n = some r) ∧
    (∀ (i n : Int) (fuel : Nat),
        ∃ r, advance IteratorCategory.randomAccess fuel i n = some r) ∧
    (∀ (cat : IteratorCategory) (first : Int) (k : Nat),
        cat ≠ IteratorCategory.output →
        ∃ r, distance cat k first (first + k) = some r) ∧
    (∀ (fuel : Nat) (i n : Int), n < 0 →
        advance IteratorCategory.input fuel i n = none) := by
  refine ⟨?_, ?_, ?_, ?_, ?_⟩
  · intro cat i n hcat
    exact ⟨i + n, advance_eq_of_nonneg cat hcat i n n le_rfl⟩
  · intro i n fuel
    exact ⟨advance_dispatch_bidirectional i n, rfl⟩
  · intro i n fuel
    exact ⟨advance_dispatch_random_access i n, rfl⟩
  · intro cat first k hcat
    exact ⟨k, distance_eq_of_reachable cat hcat first k k le_rfl⟩
  · intro fuel i n hn
    exact advance_dispatch_input_neg fuel i n hn

/-- Witness for C5 (amended): the input path terminates on a non-negative
count and returns none for a negative count at every finite budget. -/
theorem advance_distance_termination_witness :
    (∃ r, advance IteratorCategory.forward 2 5 ((2 : Nat) : Int) = some r) ∧
      advance IteratorCategory.input 4 0 (-2) = none :=
  ⟨advance_distance_termination.1 IteratorCategory.forward 5 2 (by decide),
    advance_distance_termination.2.2.2.2 4 0 (-2) (by decide)⟩

/-- Claim C6: forward returns the very argument value unchanged, and the
returned type `T&&` obeys reference collapsing — an lvalue-reference T
collapses back to the same lvalue reference, and a non-reference T yields
the rvalue reference `T&&`. -/
theorem forward_reference_collapsing (T : CppType) :
    (∀ (α : Type) (a : α), forward_value a = a) ∧
    (is_lvalue_reference T = true →
        forward_result_type T = T ∧
          is_lvalue_reference (forward_result_type T) = true) ∧
    (is_reference T = false → forward_result_type T = CppType.rref T) := by
  refine ⟨fun α a => rfl, ?_, ?_⟩
  · intro h
    cases T <;> simp_all [is_lvalue_reference, forward_result_type,
      collapse_rvalue_ref]
  · intro h
    cases T <;> simp_all [is_reference, forward_result_type,
      collapse_rvalue_ref]

/-- Witness for C6: T = int& collapses to int&, and T = int yields
int&&. -/
theorem forward_reference_collapsing_witness :
    (forward_result_type (CppType.lref (CppType.base 0)) =
          CppType.lref (CppType.base 0) ∧
        is_lvalue_reference
            (forward_result_type (CppType.lref (CppType.base 0))) = true) ∧
      forward_result_type (CppType.base 0) = CppType.rref (CppType.base 0) :=
  ⟨(forward_reference_collapsing (CppType.lref (CppType.base 0))).2.1 rfl,
    (forward_reference_collapsing (CppType.base 0)).2.2 rfl⟩

/-- Claim C7: the raw-pointer specializations of iterator_traits report
random_access_iterator_tag as category, the unqualified pointee as
value_type, ptrdiff_t as difference_type, and T*/T& respectively
const T*/const T& as pointer and reference. -/
theorem iterator_traits_pointer_correct (T : CppType)
    (hT : ∀ U, T ≠ CppType.konst U) :
    iterator_traits_pointer (CppType.ptr T) =
      some { iterator_category := IteratorCategory.randomAccess
             value_type := T
             difference_type := CppType.ptrdiffT
             pointer := CppType.ptr T
             reference := CppType.lref T } ∧
    iterator_traits_pointer (CppType.ptr (CppType.konst T)) =
      some { iterator_category := IteratorCategory.randomAccess
             value_type := T
             difference_type := CppType.ptrdiffT
             pointer := CppType.ptr (CppType.konst T)
             reference := CppType.lref (CppType.konst T) } := by
  constructor
  · cases T with
    | konst U => exact absurd rfl (hT U)
    | base id => rfl
    | ptrdiffT => rfl
    | ptr t => rfl
    | lref t => rfl
    | rref t => rfl
  · rfl

/-- Witness for C7: the traits of `int*` and `const int*`. -/
theorem iterator_traits_pointer_correct_witness :
    iterator_traits_pointer (CppType.ptr (CppType.base 0)) =
      some { iterator_category := IteratorCategory.randomAccess
             value_type := CppType.base 0
             difference_type := CppType.ptrdiffT
             pointer := CppType.ptr (CppType.base 0)
             reference := CppType.lref (CppType.base 0) } ∧
    iterator_traits_pointer (CppType.ptr (CppType.konst (CppType.base 0))) =
      some { iterator_category := IteratorCategory.randomAccess
             value_type := CppType.base 0
             difference_type := CppType.ptrdiffT
             pointer := CppType.ptr (CppType.konst (CppType.base 0))
             reference := CppType.lref (CppType.konst (CppType.base 0)) } :=
  iterator_traits_pointer_correct (CppType.base 0)
    (fun _ h => CppType.noConfusion h)

/-- Claim C8: swap exchanges the values of its two arguments, and the
fixed-size-array overload exchanges equal-length arrays element by
element, yielding the full exchange. -/
theorem swap_exchanges_values :
    (∀ (α : Type) (a b : α), swap a b = (b, a)) ∧
    (∀ (α : Type) (as bs : List α), as.length = bs.length →
        swap_arrays as bs = (bs, as)) :=
  ⟨fun _ _ _ => rfl, fun _ as bs h => swap_arrays_eq as bs h⟩

/-- Witness for C8: swapping two integers and two 2-element arrays. -/
theorem swap_exchanges_values_witness :
    swap (1 : Int) 2 = (2, 1) ∧
      swap_arrays [1, 2] [3, (4 : Int)] = ([3, 4], [1, 2]) :=
  ⟨swap_exchanges_values.1 Int 1 2,
    swap_exchanges_values.2 Int [1, 2] [3, 4] (by decide)⟩

/-- Claim C9: the six comparison operators on pair form one coherent
lexicographic order: `<` is the lexicographic comparison, and the derived
operators satisfy a > b iff b < a, a <= b iff not (b < a), a >= b iff
not (a < b), and a != b iff not (a == b). -/
theorem pair_operators_lexicographic {α β : Type} [LinearOrder α]
    [LinearOrder β] (a b : pair α β) :
    (pair_lt a b = true ↔
        a.first < b.first ∨ (a.first = b.first ∧ a.second < b.second)) ∧
    pair_gt a b = pair_lt b a ∧
    pair_le a b = !(pair_lt b a) ∧
    pair_ge a b = !(pair_lt a b) ∧
    pair_ne a b = !(pair_eq a b) := by
  refine ⟨?_, rfl, rfl, rfl, rfl⟩
  simp [pair_lt]

/-- Claim C10: the rvalue overload of forward is ill-formed (its
static assertion fails) exactly when T is an lvalue-reference type, and
whenever T is not an lvalue reference the assertion passes and the
overload returns the collapsed `T&&`. -/
theorem forward_rvalue_static_assert (T : CppType) :
    (forward_rvalue_overload T = none ↔ ∃ U, T = CppType.lref U) ∧
    (is_lvalue_reference T = false →
        forward_rvalue_overload T = some (collapse_rvalue_ref T)) := by
  constructor
  · cases T <;> simp [forward_rvalue_overload, is_lvalue_reference]
  · intro h
    simp [forward_rvalue_overload, h]

/-- Witness for C10: for a non-reference T the overload is well-formed and
returns the rvalue reference. -/
theorem forward_rvalue_static_assert_witness :
    forward_rvalue_overload (CppType.base 1) =
      some (collapse_rvalue_ref (CppType.base 1)) :=
  (forward_rvalue_static_assert (CppType.base 1)).2 rfl

end MySTL
